import Mathlib

/-!
Verification development for the Binance trading bot (`src/main.py`,
class `TradingBot`).  The Python code is shallowly embedded: every
exchange interaction is a parameter (an `Option`/`Except` value or a
boolean outcome flag), Python floats are modelled as rationals, and the
`try/except` blocks are modelled by explicit fallback branches.
-/

namespace TradingBot

/-- The order status string the code compares against (`status == 'closed'`,
`main.py` lines 249 and 257). -/
def statusClosed : String := "closed"

/-- A ccxt order status used in concrete scenarios. -/
def statusOpen : String := "open"

/-- The separator used by `trading_pair.split('/')` in `main.py`. -/
def pairSep : Char := '/'

/-- Concrete trading pair used in witnesses. -/
def adaUsdt : String := "ADA/USDT"

/-- Concrete quote currency used in witnesses. -/
def usdtName : String := "USDT"

/-- Concrete gateway error message used in witnesses. -/
def gatewayErr : String := "gateway error"

/-- One currency entry of the balance dictionary returned by
`exchange.fetch_balance()`: the `'free'` and `'used'` amounts. -/
structure BalanceEntry where
  free : ℚ
  used : ℚ
deriving DecidableEq

/-- Python's `str.split` for a one-character separator, written as
structural recursion over the character list (same semantics:
`"A/B".split('/') = ["A", "B"]`, `"AB".split('/') = ["AB"]`,
`"A/".split('/') = ["A", ""]`). -/
def splitOnChar (sep : Char) : List Char → List (List Char)
  | [] => [[]]
  | c :: cs =>
    if c = sep then [] :: splitOnChar sep cs
    else
      match splitOnChar sep cs with
      | [] => [[c]]
      | grp :: grps => (c :: grp) :: grps

/-- `trading_pair.split('/')[1]` from `main.py` line 65/96: the quote
currency of the pair.  `none` models the `IndexError` raised when the
pair contains no separator. -/
def quote_currency (tradingPair : String) : Option String :=
  ((splitOnChar pairSep tradingPair.toList).map String.mk)[1]?

/-- `TradingBot.refresh_balance` (`main.py` lines 62-68).  The whole body
is wrapped in `try/except`; the only write to `self.available_balance`
is the last expression of the `try` block, so any failure (the
`fetch_balance` call itself, the `split('/')[1]` lookup, or the
`balance[quote_currency]` dictionary access) leaves the previous value
in place.  `fetch` is the outcome of `self.exchange.fetch_balance()`,
an association list from currency name to `BalanceEntry`. -/
def refresh_balance (prevAvailable : ℚ) (tradingPair : String)
    (fetch : Except String (List (String × BalanceEntry))) : ℚ :=
  match fetch with
  | Except.error _ => prevAvailable
  | Except.ok bal =>
    match quote_currency tradingPair with
    | none => prevAvailable
    | some q =>
      match bal.lookup q with
      | none => prevAvailable
      | some entry => entry.free

/-- `TradingBot.calculate_position_size` (`main.py` lines 93-111).
`fetchedBalance` is the quote-currency free balance if the
`fetch_balance` call and dictionary lookups succeed (`none` models an
exception, caught by the `except` which returns `0`).  `ticker` is the
`last` price from `fetch_market_data` (`none` models the
`ValueError` raised when market data is unavailable, also caught,
returning `0`).  A zero price raises `ZeroDivisionError`, again caught,
returning `0`.  Otherwise the function returns
`available_balance * percentage_of_balance / current_price` with no
validation of signs whatsoever. -/
def calculate_position_size (fetchedBalance : Option ℚ) (ticker : Option ℚ)
    (percentageOfBalance : ℚ) : ℚ :=
  match fetchedBalance with
  | none => 0
  | some balance =>
    match ticker with
    | none => 0
    | some currentPrice =>
      if currentPrice = 0 then 0
      else balance * percentageOfBalance / currentPrice

/-- Outcome of one pass of the `while not self.stop_flag.is_set()` loop
body of `TradingBot.scalping_strategy` (`main.py` lines 114-126), up to
the point where a position would be opened.  `terminated` models the
bare `return` on line 126, which exits `scalping_strategy` entirely.
`skipNoTicker` models `if ticker:` being false: the body is skipped and
the loop immediately re-tests the stop flag. -/
inductive ScalpCycleResult
  | stopped
  | skipNoTicker
  | terminated
  | opened (entryPrice stopLossPrice targetPrice size : ℚ)
deriving DecidableEq

/-- The decision prefix of one scalping cycle (`main.py` lines 114-126):
check the stop flag, fetch the ticker, derive stop-loss/target prices,
compute the position size, and either `return` (when the size is not
positive) or proceed to open a position. -/
def scalp_cycle_step (stopSet : Bool) (ticker : Option ℚ)
    (positionSize stopLoss profitTarget : ℚ) : ScalpCycleResult :=
  if stopSet then ScalpCycleResult.stopped
  else
    match ticker with
    | none => ScalpCycleResult.skipNoTicker
    | some entryPrice =>
      if positionSize ≤ 0 then ScalpCycleResult.terminated
      else
        ScalpCycleResult.opened entryPrice
          (entryPrice * (1 - stopLoss)) (entryPrice * (1 + profitTarget))
          positionSize

/-- The order-size validation in `TradingBot.__init__` (`main.py` lines
45-50): when an order size is explicitly configured (`order_size > 0`)
and it is below the exchange minimum, it is silently raised to the
minimum (a warning is printed); no exception is raised and no error
value exists — the function always yields a usable size. -/
def validate_order_size (orderSize minOrderSize : ℚ) : ℚ :=
  if 0 < orderSize then
    if orderSize < minOrderSize then minOrderSize else orderSize
  else orderSize

/-- `buy_price` from `main.py` line 203. -/
def buy_price (price spread fee : ℚ) : ℚ := price * (1 - spread - fee)

/-- `sell_price` from `main.py` line 204. -/
def sell_price (price spread fee : ℚ) : ℚ := price * (1 + spread + fee)

/-- `exchange.amount_to_precision` as used on `main.py` lines 222, 226
and 234: truncation of the amount to the precision unit
`u = 10 ** -precision['amount']` (line 220).  For the non-negative
amounts in scope truncation coincides with the floor. -/
def roundAmt (u x : ℚ) : ℚ := (⌊x / u⌋ : ℚ) * u

/-- The minimum-notional adjustment of `main.py` lines 216-223 (and its
verbatim repetition on lines 230-235): if `s * buy_price` is below the
minimum notional, the size is recomputed as
`min_notional / buy_price + buffer` (one precision unit of buffer,
line 220-221) and truncated to amount precision; otherwise `s` is kept. -/
def adjustNotional (buyPrice minNotional u s : ℚ) : ℚ :=
  if s * buyPrice < minNotional then roundAmt u (minNotional / buyPrice + u)
  else s

/-- The full order-size computation of `TradingBot.market_making_strategy`
(`main.py` lines 207-235): pick the configured size if positive, else
`available_balance * percentage_of_balance / current_price` (line 208);
clamp up to the minimum order size (lines 211-212); first
minimum-notional adjustment (lines 216-223); enforce precision
(line 226); second minimum-notional check and adjustment
(lines 230-235). -/
def mm_order_size (cfgOrderSize balance pct price buyPrice
    minOrderSize minNotional u : ℚ) : ℚ :=
  let s0 := if 0 < cfgOrderSize then cfgOrderSize else balance * pct / price
  let s1 := if s0 < minOrderSize then minOrderSize else s0
  adjustNotional buyPrice minNotional u
    (roundAmt u (adjustNotional buyPrice minNotional u s1))

/-- A reconciliation action emitted toward the exchange. -/
inductive Act
  | cancel (oid : ℕ)
  | place (isBuy : Bool) (price : ℚ) (size : ℚ)
deriving DecidableEq

/-- The per-side post-wait handling of `main.py` lines 248-262: after the
60 s sleep the order status is fetched; if it is `'closed'` the order
was filled and nothing is done, otherwise `cancel_order` is called
unconditionally — the decision depends only on the status, never on how
far the order price is from the freshly desired price. -/
def after_wait_actions (status : String) (oid : ℕ) : List Act :=
  if status = statusClosed then [] else [Act.cancel oid]

/-- The outcome of the external calls of one market-making cycle
(`main.py` lines 186-266).  Each `..Ok` flag records whether the
corresponding exchange call returns normally (`false` models a raised
exception, which jumps to the `except` on line 264 and aborts the rest
of the cycle); `buyFilled`/`sellFilled` record whether the fetched
status equals `'closed'` (lines 249 and 257). -/
structure MMOutcome where
  tickerOk : Bool
  buyPlaceOk : Bool
  sellPlaceOk : Bool
  buyFetchOk : Bool
  buyFilled : Bool
  buyCancelOk : Bool
  sellFetchOk : Bool
  sellFilled : Bool
  sellCancelOk : Bool
deriving DecidableEq

/-- An order-book event caused by the market-making cycle: a limit order
placed (`create_limit_buy_order` / `create_limit_sell_order`, lines 238
and 242), an order leaving the open set because it was filled
(status `'closed'`) or because `cancel_order` succeeded (lines 253
and 261). -/
inductive MMEv
  | placeBuy (i : ℕ)
  | placeSell (i : ℕ)
  | fillBuy (i : ℕ)
  | cancelBuy (i : ℕ)
  | fillSell (i : ℕ)
  | cancelSell (i : ℕ)
deriving DecidableEq

/-- The exchange-side open-order sets for the pair, tracked by order id. -/
structure MMState where
  openBuys : List ℕ
  openSells : List ℕ
deriving DecidableEq

/-- Effect of one event on the open-order sets. -/
def applyEv (s : MMState) : MMEv → MMState
  | MMEv.placeBuy i => ⟨s.openBuys ++ [i], s.openSells⟩
  | MMEv.placeSell i => ⟨s.openBuys, s.openSells ++ [i]⟩
  | MMEv.fillBuy i => ⟨s.openBuys.erase i, s.openSells⟩
  | MMEv.cancelBuy i => ⟨s.openBuys.erase i, s.openSells⟩
  | MMEv.fillSell i => ⟨s.openBuys, s.openSells.erase i⟩
  | MMEv.cancelSell i => ⟨s.openBuys, s.openSells.erase i⟩

/-- The sell-order resolution tail of a cycle (`main.py` lines 256-262):
fetch the sell order status; if filled nothing happens, otherwise it is
canceled; an exception in either call aborts the cycle. -/
def sellPhase (o : MMOutcome) (q : ℕ) : List MMEv :=
  if o.sellFetchOk then
    if o.sellFilled then [MMEv.fillSell q]
    else if o.sellCancelOk then [MMEv.cancelSell q]
    else []
  else []

/-- The order-book events of one market-making cycle (`main.py` lines
186-266) when the freshly placed buy and sell orders get ids `b` and
`q`.  A failed ticker fetch `continue`s without touching any order
(lines 190-193); a failed call later in the cycle raises, reaching the
`except` on line 264, so every event after the failure point is
dropped — in particular an already placed order is then neither
cancelled nor checked again by this code. -/
def cycleEvents (o : MMOutcome) (b q : ℕ) : List MMEv :=
  if o.tickerOk then
    if o.buyPlaceOk then
      MMEv.placeBuy b ::
        (if o.sellPlaceOk then
          MMEv.placeSell q ::
            (if o.buyFetchOk then
              (if o.buyFilled then MMEv.fillBuy b :: sellPhase o q
               else if o.buyCancelOk then MMEv.cancelBuy b :: sellPhase o q
               else [])
             else [])
         else [])
    else []
  else []

/-- Every state passed through while running the market-making loop for
the given list of cycle outcomes, starting from state `s` with `n` as
the next fresh order id.  `List.scanl` lists the intermediate states of
one cycle (including its start state); the fold gives the state handed
to the next cycle. -/
def mmRunStates : MMState → ℕ → List MMOutcome → List MMState
  | s, _, [] => [s]
  | s, n, o :: os =>
    ((cycleEvents o n (n + 1)).scanl applyEv s) ++
      mmRunStates ((cycleEvents o n (n + 1)).foldl applyEv s) (n + 2) os

/-- All seven exchange calls of the cycle return normally (fill flags are
unconstrained). -/
def MMOutcome.allOk (o : MMOutcome) : Bool :=
  o.tickerOk && o.buyPlaceOk && o.sellPlaceOk && o.buyFetchOk &&
    o.buyCancelOk && o.sellFetchOk && o.sellCancelOk

/-- The per-pair invariant claimed for market making: at most one open
buy order and at most one open sell order. -/
def okState (s : MMState) : Bool :=
  decide (s.openBuys.length ≤ 1 ∧ s.openSells.length ≤ 1)

/-- A cycle outcome in which the sell placement raises (e.g. a gateway
error on `create_limit_sell_order`, line 242) after the buy placement
succeeded; everything else would succeed. -/
def mmBadOutcome : MMOutcome :=
  ⟨true, true, false, true, false, true, true, false, true⟩

/-- A fully successful cycle outcome in which neither order fills and
both are canceled. -/
def mmGoodOutcome : MMOutcome :=
  ⟨true, true, true, true, false, true, true, false, true⟩

/-- The `while not self.stop_flag.is_set():` loop head shared by
`scalping_strategy` (line 115) and `market_making_strategy` (line 186):
cycle `i` runs only if the stop flag is unset when tested; once the
flag reads true the loop exits.  `fuel` bounds the number of
iterations modelled; the result is the list of cycle indices whose
bodies actually run. -/
def runLoop (flag : ℕ → Bool) : ℕ → ℕ → List ℕ
  | 0, _ => []
  | fuel + 1, i => if flag i then [] else i :: runLoop flag fuel (i + 1)

/-- The kinds of order-placement calls issued by the two strategies. -/
inductive OrderCall
  | marketBuy
  | marketSell
  | limitBuy
  | limitSell
deriving DecidableEq

/-- Placement calls occurring in one scalping cycle body
(`create_market_buy_order` line 132, `create_market_sell_order`
lines 161/168). -/
def scalpCycleCalls : List OrderCall := [OrderCall.marketBuy, OrderCall.marketSell]

/-- Placement calls occurring in one market-making cycle body
(`create_limit_buy_order` line 238, `create_limit_sell_order`
line 242). -/
def mmCycleCalls : List OrderCall := [OrderCall.limitBuy, OrderCall.limitSell]

/-- All order placements issued by a strategy loop, tagged with the index
of the cycle that issued them: placements happen only inside cycle
bodies, and a body runs only when the stop flag read false at the
cycle's start. -/
def loopCalls (cycleCalls : List OrderCall) (flag : ℕ → Bool)
    (fuel : ℕ) : List (ℕ × OrderCall) :=
  (runLoop flag fuel 0).flatMap (fun i => cycleCalls.map (fun c => (i, c)))

/-- Trend classification of the spec's Trend Detector. -/
inductive Trend
  | Downward
  | Neutral
deriving DecidableEq

/-- Modelled from the spec: the Trend Detector is absent from
`src/main.py` (it belongs to a repository variant not provided); per the
spec it computes the arithmetic mean of a closing-price window and
returns `Downward` exactly when the latest close (the last element) is
strictly below the mean, `Neutral` otherwise. -/
def detectTrend (closes : List ℚ) : Trend :=
  match closes.getLast? with
  | none => Trend.Neutral
  | some latest =>
    if latest < closes.sum / (closes.length : ℚ) then Trend.Downward
    else Trend.Neutral

/-- Modelled from the spec: the trend gate of the market-making cycle is
absent from `src/main.py`; per the spec, when the detected trend is
`Downward` the cycle cancels every open order and skips quoting (emits
no placements); otherwise the planned quote actions are emitted. -/
def mmTrendGate (closes : List ℚ) (openIds : List ℕ)
    (quotes : List Act) : List Act :=
  if detectTrend closes = Trend.Downward then openIds.map Act.cancel
  else quotes

/-- The spec's downward-trend example window (latest close last). -/
def downWindow : List ℚ := [100, 99, 98, 97, 96]

/-- C1: the claim says a failed position sizing only skips the current
scalping cycle, the Scalp Monitor stays in None and the loop retries at
the next interval.  The code instead executes a bare `return`
(`main.py` line 126), which terminates `scalping_strategy` — and with
it the worker — even though the stop flag is unset: evaluated at a
concrete failing input (flag clear, ticker price 100, computed size 0),
the cycle yields `terminated`, not a skip, and not the stop-driven
exit. -/
theorem scalp_sizing_failure_terminates_loop :
    scalp_cycle_step false (some 100) 0 (3 / 200) (1 / 200) =
      ScalpCycleResult.terminated ∧
    ScalpCycleResult.terminated ≠ ScalpCycleResult.stopped ∧
    ScalpCycleResult.terminated ≠ ScalpCycleResult.skipNoTicker := by
  refine ⟨?_, by decide, by decide⟩
  norm_num [scalp_cycle_step]

/-- C2: counterexample to the claim that an explicitly configured order
size below the exchange minimum makes the bot fail with
`InsufficientNotional`.  At `order_size = 1/2` with minimum `1`
(an input strictly below the minimum), `TradingBot.__init__`
(`main.py` lines 46-50) silently raises the size to the minimum and
continues — the result is the minimum itself and no error path even
exists in `validate_order_size`. -/
theorem order_size_silently_adjusted :
    (1 / 2 : ℚ) < 1 ∧ validate_order_size (1 / 2) 1 = 1 := by
  constructor
  · norm_num
  · norm_num [validate_order_size]

/-- C2 (amended): in fixed-notional (explicitly configured order size)
mode, a configured size that is positive but below the exchange's
minimum order size is silently clamped up to that minimum (with only a
printed warning); no failure is signalled. -/
theorem order_size_clamped_to_minimum (s m : ℚ) (hs : 0 < s)
    (hsm : s < m) : validate_order_size s m = m := by
  simp [validate_order_size, hs, hsm]

/-- C2 witness: the amended clamping behaviour at a concrete input. -/
theorem order_size_clamped_to_minimum_witness :
    validate_order_size (1 / 4) 2 = 2 :=
  order_size_clamped_to_minimum (1 / 4) 2 (by norm_num) (by norm_num)

/-- C4: counterexample to the claim that an open order whose price is
within the 0.1 % tolerance of the desired price is left untouched.  The
code (`main.py` lines 248-262) has no tolerance comparison at all: an
order at exactly the desired price (deviation 0, well within the
tolerance 0.1 % × 100 = 0.1) that is still open after the wait is
canceled unconditionally. -/
theorem reconcile_within_tolerance_counterexample :
    |(100 : ℚ) - 100| ≤ 1 / 1000 * 100 ∧
    after_wait_actions statusOpen 7 = [Act.cancel 7] := by
  constructor
  · norm_num
  · decide

/-- C4 (amended): the market-making cycle has no price-deviation
tolerance: after the 60 s wait, an order whose fetched status is not
`'closed'` is canceled unconditionally — however close its price is to
the desired price — and an order whose status is `'closed'` (filled) is
left untouched. -/
theorem after_wait_cancel_unconditional (status : String) (oid : ℕ) :
    (status ≠ statusClosed →
      after_wait_actions status oid = [Act.cancel oid]) ∧
    (status = statusClosed → after_wait_actions status oid = []) := by
  constructor
  · intro h
    simp [after_wait_actions, h]
  · intro h
    simp [after_wait_actions, h]

/-- C4 witness: the amended behaviour at concrete statuses. -/
theorem after_wait_cancel_unconditional_witness :
    after_wait_actions statusOpen 3 = [Act.cancel 3] ∧
    after_wait_actions statusClosed 3 = [] :=
  ⟨(after_wait_cancel_unconditional statusOpen 3).1 (by decide),
   (after_wait_cancel_unconditional statusClosed 3).2 rfl⟩

/-- C7: counterexample to the claim that for every price, fee and spread
with `spread ≥ 2 × fee` the computed quotes satisfy
`buyPrice < price < sellPrice`.  At price 0 (with the default spread
3 % and fee 0.1 %, which satisfy the precondition) both quotes equal
the price, so neither strict inequality holds; the claim omits the
needed positivity of the price (and of `spread + fee`). -/
theorem price_calculator_zero_price_counterexample :
    2 * (1 / 1000 : ℚ) ≤ 3 / 100 ∧
    ¬(buy_price 0 (3 / 100) (1 / 1000) < 0 ∧
      (0 : ℚ) < sell_price 0 (3 / 100) (1 / 1000)) := by
  constructor
  · norm_num
  · norm_num [buy_price, sell_price]

/-- C7 (amended): for every positive price and every spread and fee with
`spread ≥ 2 × fee` and `spread + fee > 0`, the quotes
`buy_price = price × (1 − spread − fee)` and
`sell_price = price × (1 + spread + fee)` (`main.py` lines 203-204)
bracket the current price: `buyPrice < price < sellPrice`. -/
theorem price_calculator_brackets (price spread fee : ℚ)
    (hp : 0 < price) (hsf : 0 < spread + fee) (hs : 2 * fee ≤ spread) :
    buy_price price spread fee < price ∧
    price < sell_price price spread fee := by
  unfold buy_price sell_price
  constructor <;> nlinarith

/-- C7 witness: the bracketing at the default configuration
(price 100, spread 3 %, fee 0.1 %). -/
theorem price_calculator_brackets_witness :
    buy_price 100 (3 / 100) (1 / 1000) < 100 ∧
    (100 : ℚ) < sell_price 100 (3 / 100) (1 / 1000) :=
  price_calculator_brackets 100 (3 / 100) (1 / 1000) (by norm_num)
    (by norm_num) (by norm_num)

/-- C8: counterexample to the claim that a non-positive price makes
`calculate_position_size` return 0.  The function (`main.py`
lines 93-111) performs no sign validation: at price −2 (non-positive)
with balance 100 and the default 5 % fraction it returns
`100 × 0.05 / (−2) = −5/2 ≠ 0` — and no `SizingFailed` signal exists
anywhere in the code (the caller merely tests `position_size <= 0`). -/
theorem position_size_negative_price_counterexample :
    (-2 : ℚ) ≤ 0 ∧
    calculate_position_size (some 100) (some (-2)) (1 / 20) ≠ 0 := by
  constructor
  · norm_num
  · norm_num [calculate_position_size]

/-- C8 (amended): `calculate_position_size` has no explicit validation
and no `SizingFailed` signal; failure is reported only through a
non-positive return value.  With a non-negative balance fraction it
returns a value ≤ 0 whenever the balance is non-positive and the price
positive; it returns exactly 0 when the price is zero (the
`ZeroDivisionError` is caught and 0 returned) and when fetching the
balance fails (`none`).  A negative price, however, yields a negative
— not zero — size. -/
theorem position_size_failure_nonpositive (balance pct price : ℚ)
    (hpct : 0 ≤ pct) :
    (balance ≤ 0 → 0 < price →
      calculate_position_size (some balance) (some price) pct ≤ 0) ∧
    calculate_position_size (some balance) (some 0) pct = 0 ∧
    (∀ t, calculate_position_size none t pct = 0) := by
  refine ⟨?_, ?_, ?_⟩
  · intro hb hp
    show (if price = 0 then (0 : ℚ) else balance * pct / price) ≤ 0
    rw [if_neg (ne_of_gt hp)]
    have h1 : balance * pct ≤ 0 := mul_nonpos_iff.mpr (Or.inr ⟨hb, hpct⟩)
    exact div_nonpos_iff.mpr (Or.inr ⟨h1, hp.le⟩)
  · simp [calculate_position_size]
  · intro t
    rfl

/-- C8 witness: the amended failure behaviour at concrete inputs. -/
theorem position_size_failure_nonpositive_witness :
    calculate_position_size (some (-1)) (some 2) (1 / 20) ≤ 0 ∧
    calculate_position_size (some (-1)) (some 0) (1 / 20) = 0 ∧
    calculate_position_size none (some 2) (1 / 20) = 0 :=
  ⟨(position_size_failure_nonpositive (-1) (1 / 20) 2 (by norm_num)).1
      (by norm_num) (by norm_num),
   (position_size_failure_nonpositive (-1) (1 / 20) 2 (by norm_num)).2.1,
   (position_size_failure_nonpositive (-1) (1 / 20) 2 (by norm_num)).2.2
      (some 2)⟩

/-- C10: `refresh_balance` (`main.py` lines 62-68) is atomic on error:
the only write to `available_balance` is the final expression of the
`try` block, so if the balance fetch raises, the pair has no quote
component (`IndexError`), or the quote currency is missing from the
returned dictionary (`KeyError`), the previous value is kept; on
success the stored value is exactly the quote currency's free
balance. -/
theorem refresh_balance_atomic (prev : ℚ) (pair : String)
    (fetch : Except String (List (String × BalanceEntry))) :
    (∀ e, fetch = Except.error e → refresh_balance prev pair fetch = prev) ∧
    (∀ bal, fetch = Except.ok bal →
      (quote_currency pair = none → refresh_balance prev pair fetch = prev) ∧
      (∀ q, quote_currency pair = some q →
        (bal.lookup q = none → refresh_balance prev pair fetch = prev) ∧
        (∀ entry, bal.lookup q = some entry →
          refresh_balance prev pair fetch = entry.free))) := by
  refine ⟨?_, ?_⟩
  · intro e he
    subst he
    rfl
  · intro bal hb
    subst hb
    refine ⟨?_, ?_⟩
    · intro hq
      simp [refresh_balance, hq]
    · intro q hq
      refine ⟨?_, ?_⟩
      · intro hl
        simp [refresh_balance, hq, hl]
      · intro entry hl
        simp [refresh_balance, hq, hl]

/-- C10 witness: a successful refresh stores the quote currency's free
balance; a failed fetch keeps the previous snapshot. -/
theorem refresh_balance_atomic_witness :
    refresh_balance 7 adaUsdt (Except.ok [(usdtName, ⟨42, 3⟩)]) = 42 ∧
    refresh_balance 7 adaUsdt (Except.error gatewayErr) = 7 :=
  ⟨(((refresh_balance_atomic 7 adaUsdt
        (Except.ok [(usdtName, ⟨42, 3⟩)])).2 [(usdtName, ⟨42, 3⟩)] rfl).2
      usdtName (by decide)).2 ⟨42, 3⟩ (by decide),
   (refresh_balance_atomic 7 adaUsdt (Except.error gatewayErr)).1
      gatewayErr rfl⟩

/-- Truncating `minNotional / buyPrice + u` to the precision unit `u`
still leaves the notional strictly above `minNotional`: the one-unit
buffer added on `main.py` lines 219-221 absorbs the at-most-one-unit
loss of the truncation. -/
theorem roundAmt_buffer_exceeds (m bp u : ℚ) (hbp : 0 < bp) (hu : 0 < u) :
    m < roundAmt u (m / bp + u) * bp := by
  have hfloor : (m / bp + u) / u - 1 < (⌊(m / bp + u) / u⌋ : ℚ) :=
    Int.sub_one_lt_floor ((m / bp + u) / u)
  have h1 : (m / bp + u) / u - 1 = m / (bp * u) := by
    field_simp
    ring
  rw [h1] at hfloor
  have hx : (0 : ℚ) < bp * u := mul_pos hbp hu
  have h3 : m / (bp * u) * (bp * u) <
      (⌊(m / bp + u) / u⌋ : ℚ) * (bp * u) :=
    mul_lt_mul_of_pos_right hfloor hx
  rw [div_mul_cancel₀ m hx.ne'] at h3
  calc m < (⌊(m / bp + u) / u⌋ : ℚ) * (bp * u) := h3
    _ = (⌊(m / bp + u) / u⌋ : ℚ) * u * bp := by ring
    _ = roundAmt u (m / bp + u) * bp := by rw [roundAmt]

/-- After the minimum-notional adjustment step of `main.py`
lines 216-223 / 230-235, the notional is at least the minimum,
whatever size it starts from. -/
theorem adjustNotional_ge (bp m u s : ℚ) (hbp : 0 < bp) (hu : 0 < u) :
    m ≤ adjustNotional bp m u s * bp := by
  unfold adjustNotional
  split_ifs with h
  · exact (roundAmt_buffer_exceeds m bp u hbp hu).le
  · linarith

/-- C3: the post-adjustment invariant of the market-making sizing chain
(`main.py` lines 207-235).  For every positive price, balance, minimum
notional and precision unit (and positive buy-side quote price, the
price the code uses for every notional computation), the final order
size — after the minimum-order-size clamp, the minimum-notional
adjustment `(minNotional / buyPrice) + u` with re-rounding, the
precision enforcement, and the repeated notional check — satisfies
`size × buyPrice ≥ minNotional`. -/
theorem mm_notional_invariant (cfgOrderSize balance pct price buyPrice
    minOrderSize minNotional u : ℚ) (hcfg : cfgOrderSize = 0)
    (hp : 0 < price) (hb : 0 < balance) (hbp : 0 < buyPrice)
    (hm : 0 < minNotional) (hu : 0 < u) :
    minNotional ≤
      mm_order_size cfgOrderSize balance pct price buyPrice minOrderSize
        minNotional u * buyPrice := by
  unfold mm_order_size
  exact adjustNotional_ge buyPrice minNotional u _ hbp hu

/-- C3 witness: the invariant at a concrete balance-fraction
configuration (balance 100, fraction 5 %, price 10, buy price 9,
minimum order size 1, minimum notional 50, precision unit 0.01), where
both notional adjustments actually fire. -/
theorem mm_notional_invariant_witness :
    (50 : ℚ) ≤ mm_order_size 0 100 (1 / 20) 10 9 1 50 (1 / 100) * 9 :=
  mm_notional_invariant 0 100 (1 / 20) 10 9 1 50 (1 / 100) rfl
    (by norm_num) (by norm_num) (by norm_num) (by norm_num) (by norm_num)

/-- A fully successful market-making cycle keeps at most one open order
per side at every intermediate point and ends with no open orders:
the cycle from an empty book places one buy and one sell, and each of
them is resolved (filled or canceled) before the cycle ends. -/
theorem cycle_allOk_states (o : MMOutcome) (h : o.allOk = true) (b q : ℕ) :
    ((cycleEvents o b q).scanl applyEv ⟨[], []⟩).all okState = true ∧
    (cycleEvents o b q).foldl applyEv ⟨[], []⟩ = ⟨[], []⟩ := by
  obtain ⟨t, bp, sp, bf, bfi, bc, sf, sfi, sc⟩ := o
  simp only [MMOutcome.allOk, Bool.and_eq_true] at h
  obtain ⟨⟨⟨⟨⟨⟨ht, hbp⟩, hsp⟩, hbf⟩, hbc⟩, hsf⟩, hsc⟩ := h
  subst ht hbp hsp hbf hbc hsf hsc
  cases bfi <;> cases sfi <;>
    simp [cycleEvents, sellPhase, applyEv, List.scanl, okState,
      List.erase_cons_head]

/-- C5 (amended): assuming every exchange call of every cycle returns
normally, in every state reached by the market-making loop — including
every intermediate state inside a cycle — at most one open buy order
and at most one open sell order exist for the pair: each cycle's two
placed orders are filled or canceled before the next cycle places
again.  (When a call fails mid-cycle the `except` on `main.py` line 264
abandons the cycle, leaving any not-yet-resolved order open, and the
invariant fails — see the counterexample.) -/
theorem mm_one_order_per_side (outs : List MMOutcome)
    (h : ∀ o ∈ outs, o.allOk = true) (n : ℕ) :
    (mmRunStates ⟨[], []⟩ n outs).all okState = true := by
  revert h
  induction outs generalizing n with
  | nil =>
    intro _
    simp [mmRunStates, okState]
  | cons o os ih =>
    intro h
    have ho : o.allOk = true := h o (List.mem_cons_self o os)
    have hos : ∀ o2 ∈ os, o2.allOk = true :=
      fun o2 h2 => h o2 (List.mem_cons_of_mem o h2)
    obtain ⟨h1, h2⟩ := cycle_allOk_states o ho n (n + 1)
    simp only [mmRunStates]
    rw [List.all_append, h1, h2, ih (n + 2) hos]
    rfl

/-- C5 witness: the amended invariant on a concrete failure-free run. -/
theorem mm_one_order_per_side_witness :
    (mmRunStates ⟨[], []⟩ 0 [mmGoodOutcome, mmGoodOutcome]).all okState =
      true :=
  mm_one_order_per_side [mmGoodOutcome, mmGoodOutcome] (by decide) 0

/-- C5: counterexample to the claimed invariant as stated.  If the sell
placement raises in two consecutive cycles (a plain gateway error, which
the code's own `except` on `main.py` line 264 treats as routine), the
buy order placed in the first cycle is never canceled — the cycle was
abandoned before its cancel step — and the second cycle places another
buy: the run reaches a state with two open buy orders for the pair. -/
theorem mm_duplicate_open_buys_counterexample :
    ¬((mmRunStates ⟨[], []⟩ 0 [mmBadOutcome, mmBadOutcome]).all okState =
        true) := by
  decide

/-- Every cycle index executed by the worker loop was reached with the
stop flag reading false: the loop head (`main.py` lines 115 and 186)
tests the flag before each cycle body. -/
theorem runLoop_mem_flag_false (flag : ℕ → Bool) :
    ∀ fuel i c, c ∈ runLoop flag fuel i → flag c = false := by
  intro fuel
  induction fuel with
  | zero =>
    intro i c hc
    simp [runLoop] at hc
  | succ k ih =>
    intro i c hc
    rw [runLoop] at hc
    by_cases hf : flag i = true
    · rw [if_pos hf] at hc
      simp at hc
    · rw [if_neg hf] at hc
      rcases List.mem_cons.mp hc with rfl | hm
      · simpa using hf
      · exact ih (i + 1) c hm

/-- C6: once the stop flag reads true from cycle `k` onward (the
`threading.Event` is never cleared after `stop()` sets it), neither
strategy loop issues any further order placement: every
market-buy/market-sell of the scalping loop and every
limit-buy/limit-sell of the market-making loop belongs to a cycle that
started before `k` — no placement occurs after the cycle current at
stop-time completes. -/
theorem worker_stop_no_new_orders (flag : ℕ → Bool) (k fuel : ℕ)
    (h : ∀ j, k ≤ j → flag j = true) :
    (loopCalls scalpCycleCalls flag fuel).all
        (fun e => decide (e.1 < k)) = true ∧
    (loopCalls mmCycleCalls flag fuel).all
        (fun e => decide (e.1 < k)) = true := by
  have key : ∀ cs : List OrderCall,
      (loopCalls cs flag fuel).all (fun e => decide (e.1 < k)) = true := by
    intro cs
    rw [List.all_eq_true]
    intro e he
    unfold loopCalls at he
    rw [List.mem_flatMap] at he
    obtain ⟨i, hi, hmem⟩ := he
    rw [List.mem_map] at hmem
    obtain ⟨c, _, rfl⟩ := hmem
    refine decide_eq_true ?_
    by_contra hik
    push_neg at hik
    have htrue := h i hik
    have hfalse := runLoop_mem_flag_false flag fuel 0 i hi
    rw [htrue] at hfalse
    simp at hfalse
  exact ⟨key scalpCycleCalls, key mmCycleCalls⟩

/-- C6 witness: with the stop flag set from cycle 2 onward and fuel for
five iterations, every placement of either loop belongs to cycle 0
or 1. -/
theorem worker_stop_no_new_orders_witness :
    (loopCalls scalpCycleCalls (fun j => decide (2 ≤ j)) 5).all
        (fun e => decide (e.1 < 2)) = true ∧
    (loopCalls mmCycleCalls (fun j => decide (2 ≤ j)) 5).all
        (fun e => decide (e.1 < 2)) = true :=
  worker_stop_no_new_orders (fun j => decide (2 ≤ j)) 2 5
    (fun j hj => decide_eq_true hj)

/-- C9: for a closing window of length ≥ 2 whose latest close is its
last element, the Trend Detector returns `Downward` exactly when the
latest close is strictly below the arithmetic mean of the window (and
`Neutral` otherwise, since `Trend` has only these two values), and a
`Downward` trend makes the market-making cycle cancel every open order
and emit no placement.  (Both components are modelled from the spec:
they are absent from `src/main.py`.) -/
theorem trend_detector_and_gate (closes : List ℚ) (openIds : List ℕ)
    (quotes : List Act) (latest : ℚ) (h2 : 2 ≤ closes.length)
    (hl : closes.getLast? = some latest) :
    (detectTrend closes = Trend.Downward ↔
      latest < closes.sum / (closes.length : ℚ)) ∧
    (detectTrend closes = Trend.Downward →
      mmTrendGate closes openIds quotes = openIds.map Act.cancel ∧
      ∀ a ∈ mmTrendGate closes openIds quotes, ∃ i, a = Act.cancel i) := by
  have hdef : detectTrend closes =
      if latest < closes.sum / (closes.length : ℚ) then Trend.Downward
      else Trend.Neutral := by
    unfold detectTrend
    rw [hl]
  refine ⟨?_, ?_⟩
  · rw [hdef]
    split_ifs with hlt
    · simp [hlt]
    · simp [hlt]
  · intro hd
    constructor
    · rw [mmTrendGate, if_pos hd]
    · intro a ha
      rw [mmTrendGate, if_pos hd] at ha
      rw [List.mem_map] at ha
      obtain ⟨i, _, rfl⟩ := ha
      exact ⟨i, rfl⟩

/-- C9 witness: the spec's example window [100, 99, 98, 97, 96] (mean 98,
latest close 96) is classified `Downward`, and the gated cycle cancels
the two open orders 4 and 9 while placing nothing. -/
theorem trend_detector_and_gate_witness :
    detectTrend downWindow = Trend.Downward ∧
    mmTrendGate downWindow [4, 9] [] = [Act.cancel 4, Act.cancel 9] := by
  have h := trend_detector_and_gate downWindow [4, 9] [] 96
    (by norm_num [downWindow]) (by rfl)
  have hd : detectTrend downWindow = Trend.Downward := by
    refine h.1.mpr ?_
    norm_num [downWindow]
  exact ⟨hd, by simpa using (h.2 hd).1⟩

end TradingBot
